import Mathlib

/-!
Shallow embedding of `src/PVGeo/ubc/two_file_base.py` (UBC mesh reader base
class and model appender base class).

A text file is modelled as a `List String` of raw lines.  The numpy text
helpers used by the code (`np.genfromtxt` comment stripping and retention of
non-empty lines, Python's `str.split`, `int()` / `float()` token conversion,
Python sequence indexing with wrap-around for negative indices) are embedded
as executable Lean functions over `List Char`.  Python exceptions are
modelled by the `PyError` type, and fallible code returns `Except PyError`.
Stateful methods take and return explicit state records.
-/

/-- Python exception outcomes relevant to this module.  `formatErrorAt` is
modelled from the spec: a FormatError carrying the offending line number.  It
exists only so claims about error reporting can be stated; the embedded code
itself never constructs it. -/
inductive PyError where
  | indexError : PyError
  | valueError : PyError
  | attributeError : PyError
  | nameError : String → PyError
  | pvgeoError : String → PyError
  | formatErrorAt : Nat → PyError
  deriving DecidableEq

def isWsChar (c : Char) : Bool := c.isWhitespace

/-- Python's `str.strip()` as applied by numpy's line retention. -/
def pyStrip (s : String) : String :=
  String.mk (((s.data.dropWhile isWsChar).reverse.dropWhile isWsChar).reverse)

/-- Python's `line.split('!')[0]`: the text before the first comment mark. -/
def stripComment (s : String) : String :=
  String.mk (s.data.takeWhile (fun c => c != '!'))

/-- Worker for Python's whitespace `str.split()`: the second argument is the
current (reversed) partial token. -/
def wsTokensAux : List Char → List Char → List (List Char)
  | [], acc => if acc.isEmpty then [] else [acc.reverse]
  | c :: rest, acc =>
    if isWsChar c then
      if acc.isEmpty then wsTokensAux rest [] else acc.reverse :: wsTokensAux rest []
    else wsTokensAux rest (c :: acc)

/-- Python's `str.split()` with no separator: maximal runs of non-whitespace
characters become the tokens. -/
def pySplitWs (s : String) : List String := (wsTokensAux s.data []).map String.mk

/-- Numeric value of a list of decimal digit characters. -/
def digitsVal (ds : List Char) : Nat := ds.foldl (fun a c => a * 10 + (c.toNat - 48)) 0

/-- Python's `int(s)`: optional surrounding whitespace, an optional sign, then
decimal digits.  `none` models a ValueError. -/
def parseInt? (s : String) : Option Int :=
  match (pyStrip s).data with
  | [] => none
  | '-' :: ds => if ds ≠ [] ∧ ds.all Char.isDigit then some (-(digitsVal ds : Int)) else none
  | '+' :: ds => if ds ≠ [] ∧ ds.all Char.isDigit then some ((digitsVal ds : Int)) else none
  | ds => if ds.all Char.isDigit then some ((digitsVal ds : Int)) else none

/-- Elementwise `int()` conversion, as performed by `np.array(tokens, dtype=int)`.
`none` models the ValueError raised when any token fails to convert. -/
def parseIntList : List String → Option (List Int)
  | [] => some []
  | t :: ts =>
    match parseInt? t, parseIntList ts with
    | some v, some vs => some (v :: vs)
    | _, _ => none

/-- The line list produced by `np.genfromtxt(f, dtype=str, delimiter='\n',
comments='!')`: each line is stripped of comment text and surrounding
whitespace, and lines that become empty are dropped. -/
def retainedLines (file : List String) : List String :=
  (file.map (fun l => pyStrip (stripComment l))).filter (fun l => !(l.isEmpty))

/-- Python sequence indexing with an `int` index: negative indices address
from the end; `none` models an IndexError. -/
def pyGet {α : Type} (l : List α) (i : Int) : Option α :=
  if i < 0 then
    if (l.length : Int) + i < 0 then none else l[((l.length : Int) + i).toNat]?
  else l[i.toNat]?

/-- `fileLines[j].split('!')[0].split()` with a Python IndexError on a bad
index (`fileLines` entries are already comment-stripped, so the inner
`split('!')[0]` is a second application of `stripComment`). -/
def lineTokens (fileLines : List String) (j : Int) : Except PyError (List String) :=
  match pyGet fileLines j with
  | none => Except.error PyError.indexError
  | some l => Except.ok (pySplitWs (stripComment l))

/-- Iterations `i = 1, 2, …` of the loop inside `_genTup`: every non-first
line contributes its first token to `pts` and its second to `disc`; fewer
than two tokens is an IndexError.  `k` counts the remaining iterations. -/
def _genTupRest (fileLines : List String) (sft : Int) :
    Nat → Nat → Except PyError (List String × List String)
  | _, 0 => Except.ok ([], [])
  | i, k + 1 =>
    match lineTokens fileLines ((i : Int) + sft) with
    | Except.error e => Except.error e
    | Except.ok ln =>
      match ln with
      | t0 :: t1 :: _ =>
        match _genTupRest fileLines sft (i + 1) k with
        | Except.error e => Except.error e
        | Except.ok pr => Except.ok (t0 :: pr.1, t1 :: pr.2)
      | _ => Except.error PyError.indexError

/-- `_genTup(sft, n)` from `ubcMeshReaderBase._ubcMesh2D_part`: parse `n` run
lines starting at line index `sft`.  The first line carries
`origin width repeat` (three tokens required); later lines carry
`width repeat`.  Returns the token lists `(pts, disc)`.  Python's `range(n)`
iterates `max n 0` times, hence `Int.toNat`. -/
def _genTup (fileLines : List String) (sft : Int) (n : Int) :
    Except PyError (List String × List String) :=
  match n.toNat with
  | 0 => Except.ok ([], [])
  | k + 1 =>
    match lineTokens fileLines sft with
    | Except.error e => Except.error e
    | Except.ok ln =>
      match ln with
      | o :: w :: r :: _ =>
        match _genTupRest fileLines sft 1 k with
        | Except.error e => Except.error e
        | Except.ok pr => Except.ok (o :: w :: pr.1, r :: pr.2)
      | _ => Except.error PyError.indexError

/-- Subscripting the result of `np.genfromtxt(..., delimiter='\n',
comments='!')` as `_ubcMesh2D_part` does.  With exactly one retained line
numpy collapses the result to a 0-d array, on which any integer subscript
raises IndexError — this is precisely why `_ReadExtent` goes through
`msh.ravel()[0]` instead.  With any other number of retained lines the
result is a 1-d array, indexed like an ordinary Python sequence. -/
def genfromtxtGet (lines : List String) (i : Int) : Option String :=
  if lines.length = 1 then none else pyGet lines i

/-- `ubcMeshReaderBase._ubcMesh2D_part(FileName)` over the file's lines:
reads the X run count from line 0, the Z run count from line `nx+1`, and the
two run blocks; returns `(xpts, xdisc, zpts, zdisc)` as token strings.  The
two direct subscripts use `genfromtxtGet` (0-d collapse on single-line
files); `_genTup` is only reached after both have succeeded, i.e. on a 1-d
array, where its `lineTokens` subscripts behave like plain sequence
indexing. -/
def _ubcMesh2D_part (file : List String) :
    Except PyError (List String × List String × List String × List String) :=
  match genfromtxtGet (retainedLines file) 0 with
  | none => Except.error PyError.indexError
  | some l0 =>
    match parseInt? (stripComment l0) with
    | none => Except.error PyError.valueError
    | some nx =>
      match genfromtxtGet (retainedLines file) (nx + 1) with
      | none => Except.error PyError.indexError
      | some lz =>
        match parseInt? (stripComment lz) with
        | none => Except.error PyError.valueError
        | some nz =>
          match _genTup (retainedLines file) 1 nx with
          | Except.error e => Except.error e
          | Except.ok xr =>
            match _genTup (retainedLines file) (2 + nx) nz with
            | Except.error e => Except.error e
            | Except.ok zr => Except.ok (xr.1, xr.2, zr.1, zr.2)

/-- Mutable state of `ubcMeshReaderBase` relevant to the claims; `sizeM` is
`self.__sizeM`, initialised to `None` by `__init__`. -/
structure ReaderState where
  sizeM : Option (List Int)
  dataname : String
  useExtName : Bool
  deriving DecidableEq

/-- Reader state after `ubcMeshReaderBase.__init__`. -/
def initReader : ReaderState := { sizeM := none, dataname := "Data", useExtName := true }

abbrev Extent := Int × Int × Int × Int × Int × Int

/-- `ubcMeshReaderBase._ReadExtent`: parse the first retained line into
`self.__sizeM`; one token means a UBC 2D mesh (full 2D header scan, extent
`(0, sum(xdisc)+1, 0, 1, 0, sum(zdisc)+1)`), three or more tokens a 3D/OcTree
mesh (extent from the first three header integers), anything else a
PVGeoError.  Returns the updated state and the result.  Both numpy-version
branches of the source read exactly the first retained line, which is what
the model takes. -/
def _ReadExtent (s : ReaderState) (file : List String) :
    ReaderState × Except PyError Extent :=
  match (retainedLines file).head? with
  | none => (s, Except.error PyError.indexError)
  | some msh =>
    match parseIntList (pySplitWs msh) with
    | none => (s, Except.error PyError.valueError)
    | some sizes =>
      ({ s with sizeM := some sizes },
       match sizes with
       | [_] =>
         match _ubcMesh2D_part file with
         | Except.error e => Except.error e
         | Except.ok q =>
           match parseIntList q.2.1, parseIntList q.2.2.2 with
           | some xs, some zs => Except.ok (0, xs.sum + 1, 0, 1, 0, zs.sum + 1)
           | _, _ => Except.error PyError.valueError
       | ne :: nn :: nz :: _ => Except.ok (0, ne, 0, nn, 0, nz)
       | _ => Except.error (PyError.pvgeoError "File format not recognized"))

/-- `ubcMeshReaderBase.Is3D`: `self.__sizeM.shape[0] >= 3`; on a fresh reader
`self.__sizeM` is `None`, which has no `shape` (AttributeError). -/
def Is3D (s : ReaderState) : Except PyError Bool :=
  match s.sizeM with
  | none => Except.error PyError.attributeError
  | some l => Except.ok (decide (3 ≤ l.length))

/-- `ubcMeshReaderBase.Is2D`: `self.__sizeM.shape[0] == 1`. -/
def Is2D (s : ReaderState) : Except PyError Bool :=
  match s.sizeM with
  | none => Except.error PyError.attributeError
  | some l => Except.ok (decide (l.length = 1))

def isFmtErr : PyError → Bool
  | PyError.formatErrorAt _ => true
  | _ => false

/-- Whether a result is a spec-style FormatError carrying a line number. -/
def resHasFmtErr {α : Type} : Except PyError α → Bool
  | Except.error e => isFmtErr e
  | Except.ok _ => false

def exceptIsOk {α : Type} : Except PyError α → Bool
  | Except.ok _ => true
  | Except.error _ => false

/-- Names bound at module level of `two_file_base.py`: its imports are
`numpy as np`, `pandas as pd`, `vtk`, and `from .. import _helpers, base`.
The module never imports `os`. -/
def moduleImportedNames : List String := ["np", "pd", "vtk", "_helpers", "base"]

/-- `os.path.basename` for POSIX-style paths. -/
def pyBasename (p : String) : String := (p.splitOn "/").getLastD ""

/-- Python's `float(s)` on a finite decimal literal token: optional
whitespace, optional sign, integer and/or fractional digits, optional
exponent.  `none` models a ValueError (the special tokens `inf`/`nan` are
outside this model). -/
def parseFloat? (s : String) : Option Rat :=
  let t := (pyStrip s).data
  let sgnRest : Int × List Char :=
    match t with
    | '-' :: r => (-1, r)
    | '+' :: r => (1, r)
    | r => (1, r)
  let mant := sgnRest.2.takeWhile (fun c => c != 'e' && c != 'E')
  let erest := sgnRest.2.dropWhile (fun c => c != 'e' && c != 'E')
  let ip := mant.takeWhile (fun c => c != '.')
  let dotrest := mant.dropWhile (fun c => c != '.')
  let fp := match dotrest with
    | [] => ([] : List Char)
    | _ :: r => r
  let expVal : Option Int :=
    match erest with
    | [] => some 0
    | _ :: '-' :: ds => if ds ≠ [] ∧ ds.all Char.isDigit then some (-(digitsVal ds : Int)) else none
    | _ :: '+' :: ds => if ds ≠ [] ∧ ds.all Char.isDigit then some ((digitsVal ds : Int)) else none
    | _ :: ds => if ds ≠ [] ∧ ds.all Char.isDigit then some ((digitsVal ds : Int)) else none
  if ip.all Char.isDigit ∧ fp.all Char.isDigit ∧ (ip ≠ [] ∨ fp ≠ []) then
    match expVal with
    | some e =>
      let m := sgnRest.1 * (digitsVal (ip ++ fp) : Int)
      let k := e - (fp.length : Int)
      some (if 0 ≤ k then mkRat (m * (10 : Int) ^ k.toNat) 1 else mkRat m ((10 : Nat) ^ (-k).toNat))
    | none => none
  else none

/-- Elementwise `float()` conversion for `np.genfromtxt(..., dtype=float)`. -/
def parseFloatList : List String → Option (List Rat)
  | [] => some []
  | t :: ts =>
    match parseFloat? t, parseFloatList ts with
    | some v, some vs => some (v :: vs)
    | _, _ => none

/-- The single-path body of `ubcMeshReaderBase.ubcModel3D`:
`np.genfromtxt(FileName, dtype=np.float, comments='!')` over the file's
contents — comment-stripped retained lines, whitespace-split into tokens,
each converted to float.  `genfromtxt` requires every retained row to have
the same number of columns; the values are returned in row-major order.  A
missing file is an IOError, wrapped by the code into a PVGeoError. -/
def ubcModel3D_single (fs : String → Option (List String)) (p : String) :
    Except PyError (List Rat) :=
  match fs p with
  | none => Except.error (PyError.pvgeoError "IOError")
  | some contents =>
    let rows := (retainedLines contents).map pySplitWs
    if rows.all (fun r => r.length == (rows.headD []).length) then
      match parseFloatList rows.flatten with
      | some vs => Except.ok vs
      | none => Except.error PyError.valueError
    else Except.error PyError.valueError

/-- The list branch of `ubcModel3D` builds `out[os.path.basename(f)] = ubcModel3D(f)`
per file.  Python evaluates the right-hand side first, then the subscript
key; the name `os` is looked up at that point and, since the module never
imports `os`, raises NameError.  The dictionary-building branch is kept for
fidelity but is unreachable. -/
def ubcModel3DList (fs : String → Option (List String)) :
    List String → Except PyError (List (String × List Rat))
  | [] => Except.ok []
  | f :: rest =>
    match ubcModel3D_single fs f with
    | Except.error e => Except.error e
    | Except.ok v =>
      if "os" ∈ moduleImportedNames then
        match ubcModel3DList fs rest with
        | Except.error e => Except.error e
        | Except.ok out => Except.ok ((pyBasename f, v) :: out)
      else Except.error (PyError.nameError "os")

/-- The argument of `ubcModel3D`: a single file name or a list of them. -/
inductive FileArg where
  | one : String → FileArg
  | many : List String → FileArg

/-- Result of `ubcModel3D`: a flat float array, or (per the docstring) a
dictionary keyed by file basenames. -/
inductive ModelResult where
  | arr : List Rat → ModelResult
  | dictRet : List (String × List Rat) → ModelResult
  deriving DecidableEq

/-- `ubcMeshReaderBase.ubcModel3D(FileName)` with the filesystem supplied as
a map from path to file lines. -/
def ubcModel3D (fs : String → Option (List String)) : FileArg → Except PyError ModelResult
  | FileArg.one p => (ubcModel3D_single fs p).map ModelResult.arr
  | FileArg.many ps => (ubcModel3DList fs ps).map ModelResult.dictRet

/-- Cell data of the grid handed to the appender: named flat float arrays. -/
structure Grid where
  cellData : List (String × List Rat)
  deriving DecidableEq

/-- Mutable state of `ModelAppenderBase` relevant to the claims.
`mtimeCount` counts calls to the VTK-level `base.AlgorithmBase.Modified()`;
the timestep table is not modelled (no claim concerns it). -/
structure AppenderState where
  modelFileNames : List String
  dataname : String
  useExtName : Bool
  models : List (List Rat)
  needToRead : Bool
  is3D : Option Bool
  mtimeCount : Nat
  deriving DecidableEq

/-- Appender state after `ModelAppenderBase.__init__` with no kwargs. -/
def initAppender : AppenderState :=
  { modelFileNames := [], dataname := "Appended Data", useExtName := true,
    models := [], needToRead := true, is3D := none, mtimeCount := 0 }

/-- `ModelAppenderBase.Modified(readAgain)`: sets `self.__needToRead` only
when `readAgain` is true, and always signals the pipeline. -/
def ModifiedA (readAgain : Bool) (s : AppenderState) : AppenderState :=
  { s with needToRead := if readAgain then true else s.needToRead,
           mtimeCount := s.mtimeCount + 1 }

/-- `ModelAppenderBase.NeedToRead(flag)`: with a boolean flag, sets the read
status and returns it; with `None`, just reports it. -/
def NeedToRead (flag : Option Bool) (s : AppenderState) : AppenderState × Bool :=
  match flag with
  | some b => ({ s with needToRead := b }, b)
  | none => (s, s.needToRead)

/-- The `fname` argument of `AddModelFileName`: `None`, a string, or a list. -/
inductive FNameArg where
  | noneArg : FNameArg
  | strArg : String → FNameArg
  | listArg : List String → FNameArg

/-- The single-string branch of `AddModelFileName`: append and call
`Modified()` only when the name is not already present. -/
def addModelFileNameOne (s : AppenderState) (f : String) : AppenderState :=
  if f ∈ s.modelFileNames then s
  else ModifiedA true { s with modelFileNames := s.modelFileNames ++ [f] }

/-- `ModelAppenderBase.AddModelFileName(fname)`.  Note that the list branch
calls `self.Modified()` unconditionally after the loop. -/
def AddModelFileName (s : AppenderState) : FNameArg → AppenderState
  | FNameArg.noneArg => s
  | FNameArg.strArg f => addModelFileNameOne s f
  | FNameArg.listArg l => ModifiedA true (l.foldl addModelFileNameOne s)

/-- `ModelAppenderBase.ClearModels()`. -/
def ClearModels (s : AppenderState) : AppenderState :=
  ModifiedA true { s with modelFileNames := [], models := [] }

/-- `ModelAppenderBase.SetUseExtensionAsName(flag)`: on a change, stores the
flag and calls `Modified(readAgain=False)`. -/
def SetUseExtensionAsName (flag : Bool) (s : AppenderState) : AppenderState :=
  if s.useExtName ≠ flag then ModifiedA false { s with useExtName := flag } else s

/-- `ModelAppenderBase.SetDataName(name)`: an empty name reverts to
extension-based naming; a new non-empty name stores it and clears the flag;
both paths call `Modified(readAgain=False)`. -/
def SetDataName (name : String) (s : AppenderState) : AppenderState :=
  if name = "" then ModifiedA false { s with useExtName := true }
  else if s.dataname ≠ name then
    ModifiedA false { s with dataname := name, useExtName := false }
  else s

def HasModels (s : AppenderState) : Bool := decide (0 < s.modelFileNames.length)

/-- `GetModelFileNames` returns either the whole list (when `idx` is `None`
or no models are present) or the indexed file name. -/
inductive NamesRet where
  | listRet : List String → NamesRet
  | strRet : String → NamesRet
  deriving DecidableEq

/-- `ModelAppenderBase.GetModelFileNames(idx)`. -/
def GetModelFileNames (idx : Option Int) (s : AppenderState) : Except PyError NamesRet :=
  match idx with
  | none => Except.ok (NamesRet.listRet s.modelFileNames)
  | some i =>
    if HasModels s then
      match pyGet s.modelFileNames i with
      | some f => Except.ok (NamesRet.strRet f)
      | none => Except.error PyError.indexError
    else Except.ok (NamesRet.listRet s.modelFileNames)

/-- `m.split('.')[-1]` on a string. -/
def lastDotPiece (m : String) : String := (m.splitOn ".").getLastD ""

/-- `ModelAppenderBase.GetDataName()`: with extension-based naming it calls
`GetModelFileNames(idx=0)` and applies `.split('.')` to the result; when that
result is the whole list (no models loaded) the attribute lookup `split`
fails on a list (AttributeError). -/
def GetDataName (s : AppenderState) : Except PyError String :=
  if s.useExtName then
    match GetModelFileNames (some 0) s with
    | Except.ok (NamesRet.strRet m) => Except.ok (lastDotPiece m)
    | Except.ok (NamesRet.listRet _) => Except.error PyError.attributeError
    | Except.error e => Except.error e
  else Except.ok s.dataname

/-- `ModelAppenderBase.RequestData`: the output grid deep-copies the input;
if the reread flag is set, `_ReadUpFront` runs (abstract in the base class,
hence a parameter, as is `_PlaceOnMesh`); the model for the requested
timestep index is placed only when the index is within the loaded models. -/
def RequestData (readUpFront : AppenderState → AppenderState)
    (placeOnMesh : Grid → AppenderState → Nat → Grid)
    (s : AppenderState) (input : Grid) (i : Nat) : Grid × AppenderState :=
  let s1 := if s.needToRead then readUpFront s else s
  if i < s1.models.length then (placeOnMesh input s1 i, s1) else (input, s1)

/-- A well-formed whitespace-delimited token: non-empty, containing neither
whitespace nor the comment mark. -/
def isTok (t : String) : Prop :=
  t.data ≠ [] ∧ ∀ c ∈ t.data, isWsChar c = false ∧ c ≠ '!'

instance decIsTok (t : String) : Decidable (isTok t) := by
  unfold isTok
  infer_instance

/-- The first run line of an axis block in the UBC 2D dialect:
`origin width repeat`. -/
def firstRun (o w r : String) : String := o ++ " " ++ w ++ " " ++ r

/-- A subsequent run line of an axis block: `width repeat`. -/
def run2DLine (p : String × String) : String := p.1 ++ " " ++ p.2

/-- The retained-line shape of a UBC 2D mesh file: the X run count `t0`,
the X block (first line with origin, then further runs), the Z run count
`t1`, and the Z block. -/
def mesh2DLines (t0 xo xw0 xr0 : String) (xrest : List (String × String))
    (t1 zo zw0 zr0 : String) (zrest : List (String × String)) : List String :=
  t0 :: firstRun xo xw0 xr0 ::
    (xrest.map run2DLine ++ t1 :: firstRun zo zw0 zr0 :: zrest.map run2DLine)

lemma strMkData (s : String) : String.mk s.data = s := rfl

lemma strDataAppend (a b : String) : (a ++ b).data = a.data ++ b.data := by
  cases a; cases b; rfl

lemma takeWhile_all {p : Char → Bool} :
    ∀ l : List Char, (∀ c ∈ l, p c = true) → l.takeWhile p = l := by
  intro l
  induction l with
  | nil => intro _; rfl
  | cons c cs ih =>
    intro h
    rw [List.takeWhile_cons, h c (List.mem_cons_self c cs)]
    simp [ih fun d hd => h d (List.mem_cons_of_mem c hd)]

lemma dropWhile_all_ne (u v : List Char) (hu : u ≠ [])
    (h : ∀ c ∈ u, isWsChar c = false) :
    (u ++ v).dropWhile isWsChar = u ++ v := by
  cases u with
  | nil => exact absurd rfl hu
  | cons c cs =>
    rw [List.cons_append, List.dropWhile_cons, h c (List.mem_cons_self c cs)]
    simp

lemma stripComment_eq (s : String) (h : ∀ c ∈ s.data, c ≠ '!') : stripComment s = s := by
  unfold stripComment
  rw [takeWhile_all s.data fun c hc => bne_iff_ne.mpr (h c hc)]

lemma wsTokensAux_token :
    ∀ u : List Char, (∀ c ∈ u, isWsChar c = false) →
      ∀ l acc : List Char, wsTokensAux (u ++ l) acc = wsTokensAux l (u.reverse ++ acc) := by
  intro u
  induction u with
  | nil => intro _ l acc; simp
  | cons c cs ih =>
    intro h l acc
    have hc : isWsChar c = false := (h c (List.mem_cons_self c cs))
    rw [List.cons_append]
    show (if isWsChar c then _ else wsTokensAux (cs ++ l) (c :: acc)) = _
    rw [hc]
    simp only [Bool.false_eq_true, if_false]
    rw [ih (fun d hd => h d (List.mem_cons_of_mem c hd)) l (c :: acc)]
    simp [List.append_assoc]

lemma wsTokens_space_step (rest acc : List Char) (hacc : acc ≠ []) :
    wsTokensAux (' ' :: rest) acc = acc.reverse :: wsTokensAux rest [] := by
  have hsp : isWsChar ' ' = true := rfl
  show (if isWsChar ' ' then
          if acc.isEmpty then wsTokensAux rest [] else acc.reverse :: wsTokensAux rest []
        else _) = _
  rw [hsp]
  simp [List.isEmpty_iff, hacc]

lemma wsTokens_token_nil (a : String) (ha : isTok a) : wsTokensAux a.data [] = [a.data] := by
  have h := wsTokensAux_token a.data (fun c hc => (ha.2 c hc).1) [] []
  rw [List.append_nil] at h
  rw [h]
  show (if (a.data.reverse ++ []).isEmpty then _ else [(a.data.reverse ++ []).reverse]) = _
  simp [List.isEmpty_iff, ha.1]

lemma wsTokens_pair_chars (b c : String) (hb : isTok b) (hc : isTok c) :
    wsTokensAux (b.data ++ ' ' :: c.data) [] = [b.data, c.data] := by
  rw [wsTokensAux_token b.data (fun d hd => (hb.2 d hd).1)]
  rw [List.append_nil]
  rw [wsTokens_space_step c.data b.data.reverse (by simp [hb.1])]
  rw [wsTokens_token_nil c hc]
  simp

lemma pySplitWs_single (a : String) (ha : isTok a) : pySplitWs a = [a] := by
  unfold pySplitWs
  rw [wsTokens_token_nil a ha]
  simp [strMkData]

lemma data_pair (a b : String) : (a ++ " " ++ b).data = a.data ++ ' ' :: b.data := by
  rw [strDataAppend, strDataAppend]
  show a.data ++ [' '] ++ b.data = _
  simp

lemma pySplitWs_pair (a b : String) (ha : isTok a) (hb : isTok b) :
    pySplitWs (a ++ " " ++ b) = [a, b] := by
  unfold pySplitWs
  rw [data_pair, wsTokens_pair_chars a b ha hb]
  simp [strMkData]

lemma data_triple (a b c : String) :
    (a ++ " " ++ b ++ " " ++ c).data = a.data ++ ' ' :: (b.data ++ ' ' :: c.data) := by
  rw [strDataAppend, strDataAppend, strDataAppend, strDataAppend]
  show a.data ++ [' '] ++ b.data ++ [' '] ++ c.data = _
  simp

lemma pySplitWs_triple (a b c : String) (ha : isTok a) (hb : isTok b) (hc : isTok c) :
    pySplitWs (a ++ " " ++ b ++ " " ++ c) = [a, b, c] := by
  unfold pySplitWs
  rw [data_triple]
  rw [wsTokensAux_token a.data (fun d hd => (ha.2 d hd).1)]
  rw [List.append_nil]
  rw [wsTokens_space_step _ a.data.reverse (by simp [ha.1])]
  rw [wsTokens_pair_chars b c hb hc]
  simp [strMkData]

lemma pyGet_nat {α : Type} (l : List α) (n : Nat) : pyGet l (n : Int) = l[n]? := by
  unfold pyGet
  rw [if_neg (by exact not_lt.mpr (Int.natCast_nonneg n))]
  rw [Int.toNat_ofNat]

/-- C2: For every valid UBC 3D/OcTree mesh file, `_ReadExtent` returns
`(0, ne, 0, nn, 0, nz)` where `ne, nn, nz` are exactly the first three
integer tokens of the first retained (non-comment) line, and the result
depends only on that first retained line: any two files sharing it yield
the same extent regardless of their remaining content. -/
theorem claim_C2 (s s' : ReaderState) (file file' : List String) (l0 : String)
    (rest rest' : List String) (ne nn nz : Int) (more : List Int)
    (h : retainedLines file = l0 :: rest) (h' : retainedLines file' = l0 :: rest')
    (hp : parseIntList (pySplitWs l0) = some (ne :: nn :: nz :: more)) :
    (_ReadExtent s file).2 = Except.ok (0, ne, 0, nn, 0, nz) ∧
    (_ReadExtent s' file').2 = Except.ok (0, ne, 0, nn, 0, nz) := by
  have key : ∀ (t : ReaderState) (g : List String) (r : List String),
      retainedLines g = l0 :: r →
      (_ReadExtent t g).2 = Except.ok (0, ne, 0, nn, 0, nz) := by
    intro t g r hg
    unfold _ReadExtent
    rw [hg]
    simp only [List.head?_cons, hp]
  exact ⟨key s file rest h, key s' file' rest' h'⟩

/-- C2 witness: a concrete 3D header `"4 5 6"` yields extent
`(0, 4, 0, 5, 0, 6)`, for two files that differ after the header line. -/
theorem claim_C2_witness :
    (_ReadExtent initReader ["4 5 6", "7 8"]).2 = Except.ok (0, 4, 0, 5, 0, 6) ∧
    (_ReadExtent initReader ["! lead comment", "4 5 6"]).2 = Except.ok (0, 4, 0, 5, 0, 6) := by
  exact claim_C2 initReader initReader ["4 5 6", "7 8"] ["! lead comment", "4 5 6"]
    "4 5 6" ["7 8"] [] 4 5 6 [] (by decide) (by decide) (by decide)

/-- C5: For every mesh file whose first retained line has exactly two
tokens, `_ReadExtent` does not return an extent; when both tokens convert
to integers the failure is the PVGeoError with message
`File format not recognized` (the source's rendering of the spec's
unrecognized-mesh-header FormatError). -/
theorem claim_C5 (s : ReaderState) (file : List String) (l0 : String) (rest : List String)
    (a b : String) (h : retainedLines file = l0 :: rest) (hsplit : pySplitWs l0 = [a, b]) :
    exceptIsOk (_ReadExtent s file).2 = false ∧
    ∀ x y : Int, parseInt? a = some x → parseInt? b = some y →
      (_ReadExtent s file).2 = Except.error (PyError.pvgeoError "File format not recognized") := by
  constructor
  · unfold _ReadExtent
    rw [h]
    simp only [List.head?_cons, hsplit]
    cases ha : parseInt? a with
    | none => simp [parseIntList, ha, exceptIsOk]
    | some x =>
      cases hb : parseInt? b with
      | none => simp [parseIntList, ha, hb, exceptIsOk]
      | some y => simp [parseIntList, ha, hb, exceptIsOk]
  · intro x y hx hy
    unfold _ReadExtent
    rw [h]
    simp only [List.head?_cons, hsplit]
    simp [parseIntList, hx, hy]

/-- C5 witness: the concrete two-integer-token header `"1 2"`. -/
theorem claim_C5_witness :
    (_ReadExtent initReader ["1 2"]).2 =
      Except.error (PyError.pvgeoError "File format not recognized") := by
  exact (claim_C5 initReader ["1 2"] "1 2" [] "1" "2" (by decide) (by decide)).2
    1 2 (by decide) (by decide)

/-- C7: In `RequestData`, with `s1` the state after the optional
`_ReadUpFront`, a requested timestep index at or beyond the number of
loaded models leaves the output grid exactly the deep copy of the input
(and the total function raises no error); the model is placed on the mesh
only when the index is within range. -/
theorem claim_C7 (readUpFront : AppenderState → AppenderState)
    (placeOnMesh : Grid → AppenderState → Nat → Grid)
    (s : AppenderState) (input : Grid) (i : Nat) (s1 : AppenderState)
    (hs1 : s1 = if s.needToRead then readUpFront s else s) :
    (s1.models.length ≤ i → (RequestData readUpFront placeOnMesh s input i).1 = input) ∧
    (i < s1.models.length →
      (RequestData readUpFront placeOnMesh s input i).1 = placeOnMesh input s1 i) := by
  subst hs1
  unfold RequestData
  constructor
  · intro hle
    rw [if_neg (by omega)]
  · intro hlt
    rw [if_pos hlt]

/-- C7 witness: requesting timestep index 5 with 3 loaded models leaves the
output grid equal to the input grid. -/
theorem claim_C7_witness :
    (RequestData id (fun g _ _ => g)
      { initAppender with models := [[1], [2], [3]], needToRead := false }
      { cellData := [("d", [0])] } 5).1 = { cellData := [("d", [0])] } := by
  exact (claim_C7 id (fun g _ _ => g)
    { initAppender with models := [[1], [2], [3]], needToRead := false }
    { cellData := [("d", [0])] } 5 _ rfl).1 (by decide)

/-- C10: With extension-based naming active and an empty model file set,
`GetDataName` fails: `GetModelFileNames(idx=0)` returns the whole (empty)
list, and `.split('.')` on a list is an AttributeError, so no name string is
returned in that state. -/
theorem claim_C10 (s : AppenderState) (hext : s.useExtName = true)
    (hempty : s.modelFileNames = []) :
    GetDataName s = Except.error PyError.attributeError := by
  unfold GetDataName GetModelFileNames
  rw [hext]
  simp [HasModels, hempty]

/-- C10 witness: the freshly constructed appender has extension naming on
and no model files, and `GetDataName` raises AttributeError there. -/
theorem claim_C10_witness :
    GetDataName initAppender = Except.error PyError.attributeError := by
  exact claim_C10 initAppender rfl rfl

/-- C6 counterexample: with `"a.mod"` already present and the appender not
STALE, passing the duplicate inside a list leaves the set unchanged but
sets `needToRead` — the list branch of `AddModelFileName` calls `Modified()`
unconditionally — contradicting the claim that the appender is not marked
STALE in that case. -/
theorem claim_C6_counterexample :
    (AddModelFileName { initAppender with modelFileNames := ["a.mod"], needToRead := false }
        (FNameArg.listArg ["a.mod"])).modelFileNames = ["a.mod"] ∧
    (AddModelFileName { initAppender with modelFileNames := ["a.mod"], needToRead := false }
        (FNameArg.listArg ["a.mod"])).needToRead = true := by
  constructor <;> rfl

/-- C6 (amended): adding a file name already present leaves the set's length
and order unchanged in both call forms; as a single string the state is
wholly untouched (no STALE mark), but inside a list the unconditional
`Modified()` of the list branch still marks the appender STALE. -/
theorem claim_C6 (s : AppenderState) (f : String) (hf : f ∈ s.modelFileNames) :
    AddModelFileName s (FNameArg.strArg f) = s ∧
    (AddModelFileName s (FNameArg.listArg [f])).modelFileNames = s.modelFileNames ∧
    (AddModelFileName s (FNameArg.listArg [f])).needToRead = true := by
  have h1 : addModelFileNameOne s f = s := by
    unfold addModelFileNameOne
    rw [if_pos hf]
  refine ⟨h1, ?_, ?_⟩ <;> simp [AddModelFileName, ModifiedA, h1]

/-- C6 witness: the amended statement at a concrete one-file state. -/
theorem claim_C6_witness :
    AddModelFileName { initAppender with modelFileNames := ["a.mod"] }
        (FNameArg.strArg "a.mod") = { initAppender with modelFileNames := ["a.mod"] } ∧
    (AddModelFileName { initAppender with modelFileNames := ["a.mod"] }
        (FNameArg.listArg ["a.mod"])).modelFileNames = ["a.mod"] ∧
    (AddModelFileName { initAppender with modelFileNames := ["a.mod"] }
        (FNameArg.listArg ["a.mod"])).needToRead = true := by
  have h := claim_C6 { initAppender with modelFileNames := ["a.mod"] } "a.mod" (by decide)
  simpa using h

/-- C8 counterexample: from a reachable non-STALE state (via
`NeedToRead(False)`), changing the dataset-naming flag with
`SetUseExtensionAsName(False)` stores the new flag but leaves `needToRead`
false, because the setter calls `Modified(readAgain=False)` — contradicting
the claim that a naming-flag change marks the appender STALE. -/
theorem claim_C8_counterexample :
    (SetUseExtensionAsName false (NeedToRead (some false) initAppender).1).useExtName = false ∧
    (SetUseExtensionAsName false (NeedToRead (some false) initAppender).1).needToRead = false := by
  constructor <;> rfl

/-- C8 (amended): the appender becomes STALE whenever the file set changes
(a new name appended, or the set cleared) and whenever `Modified` is raised
with its default `readAgain=True`; the naming setters
(`SetUseExtensionAsName`, `SetDataName`) call `Modified(readAgain=False)`
and leave `needToRead` unchanged. -/
theorem claim_C8 (s : AppenderState) (flag : Bool) (name f : String)
    (hf : f ∉ s.modelFileNames) :
    (AddModelFileName s (FNameArg.strArg f)).needToRead = true ∧
    (ClearModels s).needToRead = true ∧
    (ModifiedA true s).needToRead = true ∧
    (SetUseExtensionAsName flag s).needToRead = s.needToRead ∧
    (SetDataName name s).needToRead = s.needToRead := by
  refine ⟨?_, rfl, rfl, ?_, ?_⟩
  · show (addModelFileNameOne s f).needToRead = true
    unfold addModelFileNameOne
    rw [if_neg hf]
    rfl
  · unfold SetUseExtensionAsName ModifiedA
    split <;> rfl
  · unfold SetDataName ModifiedA
    split
    · rfl
    · split <;> rfl

/-- C8 witness: the amended statement at the fresh appender state. -/
theorem claim_C8_witness :
    (AddModelFileName initAppender (FNameArg.strArg "a.mod")).needToRead = true ∧
    (ClearModels initAppender).needToRead = true ∧
    (ModifiedA true initAppender).needToRead = true ∧
    (SetUseExtensionAsName false initAppender).needToRead = true ∧
    (SetDataName "density" initAppender).needToRead = true := by
  have h := claim_C8 initAppender false "density" "a.mod" (by decide)
  simpa using h

/-- C3: evaluating `ubcModel3D` on a (non-empty) list of file names raises
`NameError: name 'os' is not defined` — the module imports only
numpy/pandas/vtk/_helpers/base, never `os`, yet the list branch subscripts
with `os.path.basename(f)` — while the same file read through the
single-path form returns the flat float array.  This contradicts the
docstring, which promises a dictionary keyed by file basenames for lists. -/
theorem claim_C3 :
    ubcModel3D (fun p => if p = "a.mod" then some ["1.0 2.0", "3.0 4.0", "! note"] else none)
        (FileArg.many ["a.mod"]) = Except.error (PyError.nameError "os") ∧
    ubcModel3D (fun p => if p = "a.mod" then some ["1.0 2.0", "3.0 4.0", "! note"] else none)
        (FileArg.one "a.mod") = Except.ok (ModelResult.arr [1, 2, 3, 4]) ∧
    "os" ∉ moduleImportedNames := by
  refine ⟨by rfl, by rfl, by decide⟩

/-- C9 counterexample: `_ReadExtent` on the unrecognized two-token header
`"1 2"` fails (no successful extent computation has ever occurred), yet it
has already stored the parsed header into `__sizeM`, so `Is3D`/`Is2D` then
return booleans instead of failing — contradicting the claim that they fail
before any successful extent computation. -/
theorem claim_C9_counterexample :
    exceptIsOk (_ReadExtent initReader ["1 2"]).2 = false ∧
    Is3D ((_ReadExtent initReader ["1 2"]).1) = Except.ok false ∧
    Is2D ((_ReadExtent initReader ["1 2"]).1) = Except.ok false := by
  refine ⟨rfl, rfl, rfl⟩

/-- C9 (amended): on a fresh reader (`__sizeM is None`), `Is3D` and `Is2D`
raise AttributeError; once `_ReadExtent` has parsed the first retained
header line — in particular after every successful extent computation —
both queries return booleans. -/
theorem claim_C9 :
    Is3D initReader = Except.error PyError.attributeError ∧
    Is2D initReader = Except.error PyError.attributeError ∧
    ∀ (s : ReaderState) (file : List String) (ext : Extent),
      (_ReadExtent s file).2 = Except.ok ext →
      ∃ b b' : Bool, Is3D ((_ReadExtent s file).1) = Except.ok b ∧
        Is2D ((_ReadExtent s file).1) = Except.ok b' := by
  refine ⟨rfl, rfl, ?_⟩
  intro s file ext hok
  unfold _ReadExtent at hok ⊢
  cases hh : (retainedLines file).head? with
  | none => simp [hh] at hok
  | some msh =>
    simp only [hh] at hok ⊢
    cases hp : parseIntList (pySplitWs msh) with
    | none => simp [hp] at hok
    | some sizes =>
      simp only [hp] at hok ⊢
      exact ⟨_, _, rfl, rfl⟩

/-- C9 witness: a successful 3D extent computation, after which `Is3D` is
true and `Is2D` is false. -/
theorem claim_C9_witness :
    Is3D ((_ReadExtent initReader ["4 5 6"]).1) = Except.ok true ∧
    Is2D ((_ReadExtent initReader ["4 5 6"]).1) = Except.ok false := by
  obtain ⟨b, b', hb, hb'⟩ :=
    claim_C9.2.2 initReader ["4 5 6"] (0, 4, 0, 5, 0, 6) (by rfl)
  exact ⟨by rfl, by rfl⟩

lemma resFmt_err {α : Type} (e : PyError) :
    resHasFmtErr (Except.error e : Except PyError α) = isFmtErr e := rfl

lemma resFmt_ok {α : Type} (x : α) :
    resHasFmtErr (Except.ok x : Except PyError α) = false := rfl

lemma resHasFmtErr_lineTokens (f : List String) (j : Int) :
    resHasFmtErr (lineTokens f j) = false := by
  unfold lineTokens
  cases pyGet f j <;> rfl

lemma resHasFmtErr_genTupRest (f : List String) (sft : Int) :
    ∀ (k i : Nat), resHasFmtErr (_genTupRest f sft i k) = false := by
  intro k
  induction k with
  | zero => intro i; rfl
  | succ k ih =>
    intro i
    unfold _genTupRest
    cases hlt : lineTokens f ((i : Int) + sft) with
    | error e =>
      have h := resHasFmtErr_lineTokens f ((i : Int) + sft)
      rw [hlt, resFmt_err] at h
      simpa [resFmt_err] using h
    | ok ln =>
      match ln with
      | [] => rfl
      | [t0] => rfl
      | t0 :: t1 :: tl =>
        cases hr : _genTupRest f sft (i + 1) k with
        | error e =>
          have h := ih (i + 1)
          rw [hr, resFmt_err] at h
          simpa [resFmt_err] using h
        | ok pr => rfl

lemma isFmtErr_of_err {α : Type} {X : Except PyError α} {e : PyError}
    (hX : X = Except.error e) (h : resHasFmtErr X = false) : isFmtErr e = false := by
  rw [hX, resFmt_err] at h
  exact h

lemma resHasFmtErr_genTup (f : List String) (sft n : Int) :
    resHasFmtErr (_genTup f sft n) = false := by
  unfold _genTup
  split
  · rfl
  · split
    · rename_i e heq
      rw [resFmt_err]
      exact isFmtErr_of_err heq (resHasFmtErr_lineTokens f sft)
    · split
      · split
        · rename_i e heq
          rw [resFmt_err]
          exact isFmtErr_of_err heq (resHasFmtErr_genTupRest f sft _ 1)
        · rfl
      · rfl

lemma resHasFmtErr_ubcMesh2D (file : List String) :
    resHasFmtErr (_ubcMesh2D_part file) = false := by
  unfold _ubcMesh2D_part
  split
  · rfl
  · split
    · rfl
    · split
      · rfl
      · split
        · rfl
        · split
          · rename_i e heq
            rw [resFmt_err]
            exact isFmtErr_of_err heq (resHasFmtErr_genTup (retainedLines file) 1 _)
          · split
            · rename_i e heq
              rw [resFmt_err]
              exact isFmtErr_of_err heq (resHasFmtErr_genTup (retainedLines file) _ _)
            · rfl

lemma resHasFmtErr_ReadExtent (s : ReaderState) (file : List String) :
    resHasFmtErr (_ReadExtent s file).2 = false := by
  unfold _ReadExtent
  split
  · rfl
  · split
    · rfl
    · split
      · split
        · rename_i e heq
          rw [resFmt_err]
          exact isFmtErr_of_err heq (resHasFmtErr_ubcMesh2D file)
        · split
          · rfl
          · rfl
      · rfl
      · rfl

/-- C4 counterexample: the 2D mesh input whose third expected line is
missing (and whose second line's repeat token `1.0` would later fail `int`
conversion) makes both the 2D decoder and the extent computation fail with
a bare IndexError carrying no line number — not with a FormatError that
reports the offending line, as the claim states. -/
theorem claim_C4_counterexample :
    _ubcMesh2D_part ["2", "0 1.0 2"] = Except.error PyError.indexError ∧
    resHasFmtErr (_ubcMesh2D_part ["2", "0 1.0 2"]) = false ∧
    (_ReadExtent initReader ["2", "0 1.0 2"]).2 = Except.error PyError.indexError ∧
    resHasFmtErr (_ReadExtent initReader ["2", "0 1.0 2"]).2 = false := by
  refine ⟨rfl, rfl, rfl, rfl⟩

/-- C4 (amended): on a 2D mesh file with a missing expected line the decoder
fails with a bare IndexError — including a file with a single retained
line, where numpy's 0-d collapse of the genfromtxt result makes the very
first subscript `fileLines[0]` fail; on a count token that fails numeric
conversion (in a file with at least two retained lines) it fails with a
bare ValueError; neither the decoder nor the extent computation ever
produces a FormatError reporting a line number. -/
theorem claim_C4 :
    (∀ (file : List String) (t0 : String),
        retainedLines file = [t0] →
        _ubcMesh2D_part file = Except.error PyError.indexError) ∧
    (∀ (file : List String) (t0 : String) (rest : List String) (nx : Int),
        retainedLines file = t0 :: rest → parseInt? (stripComment t0) = some nx →
        0 ≤ nx → (rest.length : Int) ≤ nx →
        _ubcMesh2D_part file = Except.error PyError.indexError) ∧
    (∀ (file : List String) (t0 : String) (rest : List String),
        retainedLines file = t0 :: rest → rest ≠ [] →
        parseInt? (stripComment t0) = none →
        _ubcMesh2D_part file = Except.error PyError.valueError) ∧
    (∀ file : List String, resHasFmtErr (_ubcMesh2D_part file) = false) ∧
    (∀ (s : ReaderState) (file : List String), resHasFmtErr (_ReadExtent s file).2 = false) := by
  refine ⟨?_, ?_, ?_, resHasFmtErr_ubcMesh2D, resHasFmtErr_ReadExtent⟩
  · intro file t0 hfile
    unfold _ubcMesh2D_part
    rw [hfile]
    have hg : genfromtxtGet [t0] (0 : Int) = none := by
      unfold genfromtxtGet
      simp
    rw [hg]
  · intro file t0 rest nx hfile hparse hpos hshort
    rcases rest with _ | ⟨r1, rs⟩
    · unfold _ubcMesh2D_part
      rw [hfile]
      have hg : genfromtxtGet [t0] (0 : Int) = none := by
        unfold genfromtxtGet
        simp
      rw [hg]
    · have hlen : (t0 :: r1 :: rs).length ≠ 1 := by simp
      unfold _ubcMesh2D_part
      rw [hfile]
      have h0 : genfromtxtGet (t0 :: r1 :: rs) (0 : Int) = some t0 := by
        unfold genfromtxtGet
        rw [if_neg hlen, show (0 : Int) = ((0 : Nat) : Int) from rfl, pyGet_nat]
        exact List.getElem?_cons_zero
      rw [h0]
      simp only [hparse]
      have hmiss : genfromtxtGet (t0 :: r1 :: rs) (nx + 1) = none := by
        unfold genfromtxtGet
        rw [if_neg hlen]
        have hx : nx + 1 = ((nx.toNat + 1 : Nat) : Int) := by omega
        rw [hx, pyGet_nat]
        rw [List.getElem?_cons_succ]
        refine List.getElem?_eq_none ?_
        have hlr : ((r1 :: rs).length : Int) ≤ nx := hshort
        omega
      rw [hmiss]
  · intro file t0 rest hfile hne hparse
    rcases rest with _ | ⟨r1, rs⟩
    · exact absurd rfl hne
    · have hlen : (t0 :: r1 :: rs).length ≠ 1 := by simp
      unfold _ubcMesh2D_part
      rw [hfile]
      have h0 : genfromtxtGet (t0 :: r1 :: rs) (0 : Int) = some t0 := by
        unfold genfromtxtGet
        rw [if_neg hlen, show (0 : Int) = ((0 : Nat) : Int) from rfl, pyGet_nat]
        exact List.getElem?_cons_zero
      rw [h0]
      simp only [hparse]

/-- C4 witness: a declared X run count of 2 with only one run line present
is rejected with IndexError; a single-retained-line file is rejected with
IndexError by the 0-d subscript; a non-numeric count line in a two-line
file is rejected with ValueError. -/
theorem claim_C4_witness :
    _ubcMesh2D_part ["2", "0 1 2"] = Except.error PyError.indexError ∧
    _ubcMesh2D_part ["abc"] = Except.error PyError.indexError ∧
    _ubcMesh2D_part ["abc", "1 1"] = Except.error PyError.valueError := by
  refine ⟨?_, ?_, ?_⟩
  · exact claim_C4.2.1 ["2", "0 1 2"] "2" ["0 1 2"] 2 (by decide) (by decide)
      (by decide) (by decide)
  · exact claim_C4.1 ["abc"] "abc" (by decide)
  · exact claim_C4.2.2.1 ["abc", "1 1"] "abc" ["1 1"] (by decide) (by decide) (by decide)

lemma run2DLine_nobang (p : String × String) (hp1 : isTok p.1) (hp2 : isTok p.2) :
    ∀ c ∈ (run2DLine p).data, c ≠ '!' := by
  intro c hc
  simp only [run2DLine] at hc
  rw [data_pair] at hc
  rcases List.mem_append.mp hc with h1 | h2
  · exact (hp1.2 c h1).2
  · rcases List.mem_cons.mp h2 with rfl | h3
    · decide
    · exact (hp2.2 c h3).2

lemma genTupRest_ok :
    ∀ (ps : List (String × String)) (pre post : List String) (i : Nat) (sft : Int),
      (∀ p ∈ ps, isTok p.1 ∧ isTok p.2) →
      (i : Int) + sft = (pre.length : Int) →
      _genTupRest (pre ++ ps.map run2DLine ++ post) sft i ps.length =
        Except.ok (ps.map Prod.fst, ps.map Prod.snd) := by
  intro ps
  induction ps with
  | nil => intro pre post i sft _ _; rfl
  | cons p ps ih =>
    intro pre post i sft hp hi
    have hp1 : isTok p.1 := (hp p (List.mem_cons_self p ps)).1
    have hp2 : isTok p.2 := (hp p (List.mem_cons_self p ps)).2
    have hidx : pyGet (pre ++ (p :: ps).map run2DLine ++ post) ((i : Int) + sft)
        = some (run2DLine p) := by
      rw [hi, pyGet_nat, List.append_assoc,
        List.getElem?_append_right (le_refl pre.length)]
      simp
    have htok : lineTokens (pre ++ (p :: ps).map run2DLine ++ post) ((i : Int) + sft)
        = Except.ok [p.1, p.2] := by
      unfold lineTokens
      rw [hidx]
      show Except.ok (pySplitWs (stripComment (run2DLine p))) = _
      rw [stripComment_eq _ (run2DLine_nobang p hp1 hp2)]
      rw [show run2DLine p = p.1 ++ " " ++ p.2 from rfl]
      rw [pySplitWs_pair p.1 p.2 hp1 hp2]
    show _genTupRest (pre ++ (p :: ps).map run2DLine ++ post) sft i (ps.length + 1) = _
    unfold _genTupRest
    simp only [htok]
    have hL : pre ++ (p :: ps).map run2DLine ++ post
        = (pre ++ [run2DLine p]) ++ ps.map run2DLine ++ post := by simp
    rw [hL]
    rw [ih (pre ++ [run2DLine p]) post (i + 1) sft
      (fun q hq => hp q (List.mem_cons_of_mem p hq))
      (by simp only [List.length_append, List.length_cons, List.length_nil]; push_cast; omega)]
    simp

lemma firstRun_nobang (o w r : String) (ho : isTok o) (hw : isTok w) (hr : isTok r) :
    ∀ c ∈ (firstRun o w r).data, c ≠ '!' := by
  intro c hc
  simp only [firstRun] at hc
  rw [data_triple] at hc
  rcases List.mem_append.mp hc with h1 | h2
  · exact (ho.2 c h1).2
  · rcases List.mem_cons.mp h2 with rfl | h3
    · decide
    · rcases List.mem_append.mp h3 with h4 | h5
      · exact (hw.2 c h4).2
      · rcases List.mem_cons.mp h5 with rfl | h6
        · decide
        · exact (hr.2 c h6).2

lemma genTup_ok (pre post : List String) (o w r : String) (ps : List (String × String))
    (sft : Int) (ho : isTok o) (hw : isTok w) (hr : isTok r)
    (hp : ∀ p ∈ ps, isTok p.1 ∧ isTok p.2)
    (hsft : sft = (pre.length : Int)) :
    _genTup (pre ++ (firstRun o w r :: ps.map run2DLine) ++ post) sft
        ((ps.length + 1 : Nat) : Int) =
      Except.ok (o :: w :: ps.map Prod.fst, r :: ps.map Prod.snd) := by
  have hidx : pyGet (pre ++ (firstRun o w r :: ps.map run2DLine) ++ post) sft
      = some (firstRun o w r) := by
    rw [hsft, pyGet_nat, List.append_assoc,
      List.getElem?_append_right (le_refl pre.length)]
    simp
  have htok : lineTokens (pre ++ (firstRun o w r :: ps.map run2DLine) ++ post) sft
      = Except.ok [o, w, r] := by
    unfold lineTokens
    rw [hidx]
    show Except.ok (pySplitWs (stripComment (firstRun o w r))) = _
    rw [stripComment_eq _ (firstRun_nobang o w r ho hw hr)]
    rw [show firstRun o w r = o ++ " " ++ w ++ " " ++ r from rfl]
    rw [pySplitWs_triple o w r ho hw hr]
  unfold _genTup
  rw [Int.toNat_ofNat]
  simp only [htok]
  have hL : pre ++ (firstRun o w r :: ps.map run2DLine) ++ post
      = (pre ++ [firstRun o w r]) ++ ps.map run2DLine ++ post := by simp
  rw [hL]
  rw [genTupRest_ok ps (pre ++ [firstRun o w r]) post 1 sft hp
    (by simp only [List.length_append, List.length_cons, List.length_nil]; push_cast; omega)]

lemma ubcMesh2D_part_ok (file : List String)
    (t0 xo xw0 xr0 t1 zo zw0 zr0 : String)
    (xrest zrest : List (String × String))
    (ht0 : isTok t0) (hxo : isTok xo) (hxw0 : isTok xw0) (hxr0 : isTok xr0)
    (ht1 : isTok t1) (hzo : isTok zo) (hzw0 : isTok zw0) (hzr0 : isTok zr0)
    (hxtok : ∀ p ∈ xrest, isTok p.1 ∧ isTok p.2)
    (hztok : ∀ p ∈ zrest, isTok p.1 ∧ isTok p.2)
    (hfile : retainedLines file = mesh2DLines t0 xo xw0 xr0 xrest t1 zo zw0 zr0 zrest)
    (hnx : parseInt? t0 = some ((xrest.length + 1 : Nat) : Int))
    (hnz : parseInt? t1 = some ((zrest.length + 1 : Nat) : Int)) :
    _ubcMesh2D_part file =
      Except.ok (xo :: xw0 :: xrest.map Prod.fst, xr0 :: xrest.map Prod.snd,
        zo :: zw0 :: zrest.map Prod.fst, zr0 :: zrest.map Prod.snd) := by
  have hlen1 : (mesh2DLines t0 xo xw0 xr0 xrest t1 zo zw0 zr0 zrest).length ≠ 1 := by
    simp only [mesh2DLines, List.length_cons, List.length_append, List.length_map]
    omega
  have h0 : genfromtxtGet (mesh2DLines t0 xo xw0 xr0 xrest t1 zo zw0 zr0 zrest) (0 : Int)
      = some t0 := by
    unfold genfromtxtGet
    rw [if_neg hlen1, show (0 : Int) = ((0 : Nat) : Int) from rfl, pyGet_nat]
    simp only [mesh2DLines]
    exact List.getElem?_cons_zero
  have hst0 : parseInt? (stripComment t0) = some ((xrest.length + 1 : Nat) : Int) := by
    rw [stripComment_eq t0 (fun c hc => (ht0.2 c hc).2)]
    exact hnx
  have hst1 : parseInt? (stripComment t1) = some ((zrest.length + 1 : Nat) : Int) := by
    rw [stripComment_eq t1 (fun c hc => (ht1.2 c hc).2)]
    exact hnz
  have hidx1 : genfromtxtGet (mesh2DLines t0 xo xw0 xr0 xrest t1 zo zw0 zr0 zrest)
      (((xrest.length + 1 : Nat) : Int) + 1) = some t1 := by
    unfold genfromtxtGet
    rw [if_neg hlen1]
    rw [show (((xrest.length + 1 : Nat) : Int) + 1) = ((xrest.length + 2 : Nat) : Int)
      by push_cast; ring]
    rw [pyGet_nat]
    simp only [mesh2DLines]
    rw [show xrest.length + 2 = xrest.length + 1 + 1 from rfl]
    rw [List.getElem?_cons_succ, List.getElem?_cons_succ]
    rw [show xrest.length = (xrest.map run2DLine).length from (List.length_map _ _).symm]
    rw [List.getElem?_append_right (le_refl _)]
    simp
  have hx : _genTup (mesh2DLines t0 xo xw0 xr0 xrest t1 zo zw0 zr0 zrest) 1
      ((xrest.length + 1 : Nat) : Int)
      = Except.ok (xo :: xw0 :: xrest.map Prod.fst, xr0 :: xrest.map Prod.snd) := by
    have hshape : mesh2DLines t0 xo xw0 xr0 xrest t1 zo zw0 zr0 zrest
        = [t0] ++ (firstRun xo xw0 xr0 :: xrest.map run2DLine)
          ++ (t1 :: firstRun zo zw0 zr0 :: zrest.map run2DLine) := by
      simp [mesh2DLines]
    rw [hshape]
    exact genTup_ok [t0] _ xo xw0 xr0 xrest 1 hxo hxw0 hxr0 hxtok (by norm_num)
  have hz : _genTup (mesh2DLines t0 xo xw0 xr0 xrest t1 zo zw0 zr0 zrest)
      (2 + ((xrest.length + 1 : Nat) : Int)) ((zrest.length + 1 : Nat) : Int)
      = Except.ok (zo :: zw0 :: zrest.map Prod.fst, zr0 :: zrest.map Prod.snd) := by
    have hshape : mesh2DLines t0 xo xw0 xr0 xrest t1 zo zw0 zr0 zrest
        = (t0 :: firstRun xo xw0 xr0 :: (xrest.map run2DLine ++ [t1]))
          ++ (firstRun zo zw0 zr0 :: zrest.map run2DLine) ++ [] := by
      simp [mesh2DLines]
    rw [hshape]
    exact genTup_ok _ [] zo zw0 zr0 zrest _ hzo hzw0 hzr0 hztok
      (by simp only [List.length_cons, List.length_append, List.length_map,
            List.length_nil]; push_cast; ring)
  unfold _ubcMesh2D_part
  rw [hfile]
  simp only [h0, hst0, hidx1, hst1, hx, hz]

/-- C1: For every valid UBC 2D mesh file — retained lines shaped as the X
run count, the X run block (origin line then further runs), the Z run
count, and the Z run block, with the count tokens matching the block
lengths and every repeat token converting to an integer — `_ReadExtent`
returns the whole extent `(0, nx, 0, 1, 0, nz)` where `nx` is the sum of
the X-axis run repeat counts plus 1 and `nz` is the sum of the Z-axis run
repeat counts plus 1. -/
theorem claim_C1 (s : ReaderState) (file : List String)
    (t0 xo xw0 xr0 t1 zo zw0 zr0 : String)
    (xrest zrest : List (String × String))
    (xr0v zr0v : Int) (xreps zreps : List Int)
    (ht0 : isTok t0) (hxo : isTok xo) (hxw0 : isTok xw0) (hxr0 : isTok xr0)
    (ht1 : isTok t1) (hzo : isTok zo) (hzw0 : isTok zw0) (hzr0 : isTok zr0)
    (hxtok : ∀ p ∈ xrest, isTok p.1 ∧ isTok p.2)
    (hztok : ∀ p ∈ zrest, isTok p.1 ∧ isTok p.2)
    (hfile : retainedLines file = mesh2DLines t0 xo xw0 xr0 xrest t1 zo zw0 zr0 zrest)
    (hnx : parseInt? t0 = some ((xrest.length + 1 : Nat) : Int))
    (hnz : parseInt? t1 = some ((zrest.length + 1 : Nat) : Int))
    (hxr0v : parseInt? xr0 = some xr0v)
    (hzr0v : parseInt? zr0 = some zr0v)
    (hxreps : parseIntList (xrest.map Prod.snd) = some xreps)
    (hzreps : parseIntList (zrest.map Prod.snd) = some zreps) :
    (_ReadExtent s file).2 =
      Except.ok (0, (xr0v :: xreps).sum + 1, 0, 1, 0, (zr0v :: zreps).sum + 1) := by
  have hhead : (retainedLines file).head? = some t0 := by rw [hfile]; rfl
  have hsizes : parseIntList (pySplitWs t0) = some [((xrest.length + 1 : Nat) : Int)] := by
    rw [pySplitWs_single t0 ht0]
    simp [parseIntList, hnx]
  have hpart := ubcMesh2D_part_ok file t0 xo xw0 xr0 t1 zo zw0 zr0 xrest zrest
    ht0 hxo hxw0 hxr0 ht1 hzo hzw0 hzr0 hxtok hztok hfile hnx hnz
  have hxl : parseIntList (xr0 :: xrest.map Prod.snd) = some (xr0v :: xreps) := by
    simp [parseIntList, hxr0v, hxreps]
  have hzl : parseIntList (zr0 :: zrest.map Prod.snd) = some (zr0v :: zreps) := by
    simp [parseIntList, hzr0v, hzreps]
  unfold _ReadExtent
  simp only [hhead, hsizes, hpart, hxl, hzl]

/-- C1 witness: the concrete 2D mesh file with two runs per axis
(`2+3` cells each way) has whole extent `(0, 6, 0, 1, 0, 6)`. -/
theorem claim_C1_witness :
    (_ReadExtent initReader ["2", "0 10 2", "20 3", "2", "0 10 2", "20 3"]).2 =
      Except.ok (0, 6, 0, 1, 0, 6) := by
  have h := claim_C1 initReader ["2", "0 10 2", "20 3", "2", "0 10 2", "20 3"]
    "2" "0" "10" "2" "2" "0" "10" "2" [("20", "3")] [("20", "3")]
    2 2 [3] [3]
    (by decide) (by decide) (by decide) (by decide) (by decide) (by decide)
    (by decide) (by decide) (by decide) (by decide) (by decide) (by decide)
    (by decide) (by decide) (by decide) (by decide) (by decide)
  rw [h]
  rfl
